import Mathlib

/-
Verification of the Base observable-model toolkit (event.h / model.h):
a shallow embedding of Event, Property, SortView and Collection, with
theorems settling the specification claims about them.

Pointers (`unique_ptr<Item>`) are modelled as `Option Item` (none = null);
fallible calls return `Except`; the side effects of a mutating Collection
operation are returned as an explicit trace of actions, each paired with
the collection state in effect at the moment the action executes.
-/

namespace RT

/-! ## Event (src/Base/event.h) -/

/-- A subscriber entry: the identity token of the event handler
(`_eventHandler`, a pointer in the C++ source, here an abstract identity
type `H`) together with the handler method (`_handlerMethod`). -/
structure Subscriber (H Cb : Type) where
  eventHandler : H
  handlerMethod : Cb
deriving DecidableEq, Repr

/-- Event state: the ordered `_subscribers` vector. -/
structure Event (H Cb : Type) where
  subscribers : List (Subscriber H Cb)
deriving DecidableEq, Repr

/-- Event::subscribe: wraps the pair in a new Subscriber and pushes it at
the back of `_subscribers`, unconditionally (duplicates allowed). -/
def Event.subscribe {H Cb : Type} (e : Event H Cb) (eventHandler : H)
    (handlerMethod : Cb) : Event H Cb :=
  ⟨e.subscribers ++ [⟨eventHandler, handlerMethod⟩]⟩

/-- Event::unsubscribe: `remove_if` + `erase` removes every entry whose
`representsEventHandler(eventHandler)` holds, keeping the rest in order. -/
def Event.unsubscribe {H Cb : Type} [DecidableEq H] (e : Event H Cb)
    (eventHandler : H) : Event H Cb :=
  ⟨e.subscribers.filter (fun s => !decide (s.eventHandler = eventHandler))⟩

/-- Event::fire: invokes each registered subscriber in vector order,
passing the same argument tuple to each.  The observable behaviour is the
sequence of invocations: which subscriber ran, with which arguments. -/
def Event.fire {H Cb A : Type} (e : Event H Cb) (args : A) :
    List (Subscriber H Cb × A) :=
  e.subscribers.map (fun s => (s, args))

/-- EventHandler::~EventHandler: for every recorded connected event, call
`unsubscribe(this)` on it. -/
def eventHandlerDestroy {H Cb : Type} [DecidableEq H] (self : H)
    (connectedEvents : List (Event H Cb)) : List (Event H Cb) :=
  connectedEvents.map (fun e => e.unsubscribe self)

/-! ## Property (src/Base/model.h, src/unnamed/part_000) -/

/-- Reading `value()` on an empty Property (std::optional::value on an
empty optional). -/
inductive EmptyValueError where
  | emptyValue
deriving DecidableEq, Repr

/-- Property state: the `optional<T> _value` cell. -/
structure Property (T : Type) where
  val : Option T
deriving DecidableEq, Repr

/-- Property::isEmpty: `!_value.has_value()`. -/
def Property.isEmpty {T : Type} (p : Property T) : Bool := !p.val.isSome

/-- Property::hasValue: `_value.has_value()`. -/
def Property.hasValue {T : Type} (p : Property T) : Bool := p.val.isSome

/-- Property::value: `_value.value()`, which raises on an empty optional. -/
def Property.value {T : Type} (p : Property T) : Except EmptyValueError T :=
  match p.val with
  | some v => Except.ok v
  | none => Except.error EmptyValueError.emptyValue

/-- operator== on Property as written in src/Base/model.h (lines 64-67):
`p1.hasValue() && p2.hasValue() && p1.value() == p2.value()`.  The
`value()` calls are guarded by the short-circuiting `hasValue()` checks,
so the comparison only happens when both sides hold a value. -/
def propEqModelH {T : Type} [DecidableEq T] (p1 p2 : Property T) : Bool :=
  match p1.val, p2.val with
  | some a, some b => decide (a = b)
  | _, _ => false

/-- operator== on Property as written in src/unnamed/part_000
(lines 102-106): `(p1.isEmpty() && p2.isEmpty()) || (p1.hasValue() &&
p2.hasValue() && p1.value() == p2.value())`. -/
def propEqPart0 {T : Type} [DecidableEq T] (p1 p2 : Property T) : Bool :=
  (p1.isEmpty && p2.isEmpty) ||
    match p1.val, p2.val with
    | some a, some b => decide (a = b)
    | _, _ => false

/-- operator!= from src/unnamed/part_000 (lines 108-111): `!(p1 == p2)`. -/
def propNePart0 {T : Type} [DecidableEq T] (p1 p2 : Property T) : Bool :=
  !propEqPart0 p1 p2

/-! ## SortView (src/Base/model.h lines 75-89, part_000 lines 125-139) -/

/-- `vector::at` with an invalid index. -/
inductive OutOfRangeError where
  | outOfRange
deriving DecidableEq, Repr

/-- SortView state: the `_sortedIds` vector. -/
structure SortView (Id : Type) where
  sortedIds : List Id
deriving DecidableEq, Repr

/-- SortView::size. -/
def SortView.size {Id : Type} (s : SortView Id) : Nat := s.sortedIds.length

/-- SortView::at(size_type): `_sortedIds.at(index)`, bounds-checked. -/
def SortView.atIndex {Id : Type} (s : SortView Id) (i : Nat) :
    Except OutOfRangeError Id :=
  match s.sortedIds.get? i with
  | some v => Except.ok v
  | none => Except.error OutOfRangeError.outOfRange

/-- SortView::at(int): its body is `return at(index);` where `index` still
has type int, so overload resolution selects `at(int)` itself and the call
recurses with no base case.  Modelled with explicit fuel: `none` means the
call has not produced a result within `fuel` recursive steps. -/
def SortView.atIntOverload {Id : Type} (s : SortView Id) (i : Int) :
    Nat → Option (Except OutOfRangeError Id)
  | 0 => none
  | fuel + 1 => s.atIntOverload i fuel

/-! ## Collection (src/Base/model.h lines 91-182, part_000 lines 144-279) -/

/-- `findById` on an absent id (std::map::at raises). -/
inductive NotFoundError where
  | notFound
deriving DecidableEq, Repr

/-- Dereferencing a null `unique_ptr` (undefined behaviour in the C++
source, surfaced here as an explicit failure). -/
inductive NullDerefError where
  | nullDeref
deriving DecidableEq, Repr

/-- An observable action performed by a mutating Collection operation:
destruction of an owned item, or the firing of one of the three events
(with the arguments the source passes). -/
inductive CAction (Id Item : Type) where
  | destroyItem : Id → CAction Id Item
  | fireItemAdded : Id → Item → CAction Id Item
  | fireItemRemoved : Id → CAction Id Item
  | fireCleared : CAction Id Item
deriving DecidableEq, Repr

/-- Collection state: the `map<Id, unique_ptr<Item>> _items` (an
association list with at most one entry per key; the C++ map iterates in
key order, the list in insertion order, which none of the claims below
depend on) and the `set<Id> _ids`, as the list of its elements. -/
structure Collection (Id Item : Type) where
  items : List (Id × Item)
  ids : List Id
deriving DecidableEq, Repr

/-- `_items.count(id)`: the number of entries stored under `id`. -/
def mapCount {Id Item : Type} [DecidableEq Id] (id : Id)
    (items : List (Id × Item)) : Nat :=
  (items.filter (fun kv => decide (kv.1 = id))).length

/-- `_items.erase(id)`: drops every entry stored under `id` (destroying
the owned items). -/
def mapErase {Id Item : Type} [DecidableEq Id] (id : Id)
    (items : List (Id × Item)) : List (Id × Item) :=
  items.filter (fun kv => !decide (kv.1 = id))

/-- `_items.at(id)` lookup: the first (and only) entry under `id`. -/
def mapFind {Id Item : Type} [DecidableEq Id] (id : Id) :
    List (Id × Item) → Option Item
  | [] => none
  | kv :: rest => if kv.1 = id then some kv.2 else mapFind id rest

/-- `_items[id] = ptr` for an id known to be absent: stores a new entry. -/
def mapInsert {Id Item : Type} (id : Id) (item : Item)
    (items : List (Id × Item)) : List (Id × Item) :=
  items ++ [(id, item)]

/-- `_ids.insert(id)`: set insertion, a no-op when already present. -/
def setInsert {Id : Type} [DecidableEq Id] (id : Id) (ids : List Id) :
    List Id :=
  if id ∈ ids then ids else ids ++ [id]

/-- `_ids.erase(id)`: removes the element from the set. -/
def setErase {Id : Type} [DecidableEq Id] (id : Id) (ids : List Id) :
    List Id :=
  ids.filter (fun x => !decide (x = id))

/-- Collection::isEmpty: `_items.empty()`. -/
def Collection.isEmpty {Id Item : Type} (c : Collection Id Item) : Bool :=
  c.items.isEmpty

/-- Collection::size: `_items.size()`. -/
def Collection.size {Id Item : Type} (c : Collection Id Item) : Nat :=
  c.items.length

/-- Collection::contains: `_items.count(id) > 0`. -/
def Collection.contains {Id Item : Type} [DecidableEq Id]
    (c : Collection Id Item) (id : Id) : Bool :=
  decide (0 < mapCount id c.items)

/-- Collection::findById: `*_items.at(id)`; std::map::at raises when the
key is absent. -/
def Collection.findById {Id Item : Type} [DecidableEq Id]
    (c : Collection Id Item) (id : Id) : Except NotFoundError Item :=
  match mapFind id c.items with
  | some it => Except.ok it
  | none => Except.error NotFoundError.notFound

/-- Collection::add: extracts the id; when absent, inserts it into `_ids`
and `_items` and then fires `itemAdded(*this, id, *item)` — the event
argument is the very object now stored under the id.  When the id is
already present nothing happens at all.  Returns the post-state and the
trace of (action, state at the moment the action executes). -/
def Collection.add {Id Item : Type} [DecidableEq Id] (idFn : Item → Id)
    (c : Collection Id Item) (item : Item) :
    Collection Id Item × List (CAction Id Item × Collection Id Item) :=
  let id := idFn item
  if c.contains id then (c, [])
  else
    let c1 : Collection Id Item :=
      ⟨mapInsert id item c.items, setInsert id c.ids⟩
    (c1, [(CAction.fireItemAdded id item, c1)])

/-- Collection::removeById: `if (_items.erase(id) > 0)` — the erase both
removes the entry from the map and destroys the owned item; only then is
the id erased from `_ids` and `itemRemoved(*this, id)` fired. -/
def Collection.removeById {Id Item : Type} [DecidableEq Id]
    (c : Collection Id Item) (id : Id) :
    Collection Id Item × List (CAction Id Item × Collection Id Item) :=
  if 0 < mapCount id c.items then
    let c1 : Collection Id Item := ⟨mapErase id c.items, c.ids⟩
    let c2 : Collection Id Item := ⟨c1.items, setErase id c.ids⟩
    (c2, [(CAction.destroyItem id, c1), (CAction.fireItemRemoved id, c2)])
  else (c, [])

/-- Collection::clear: `_items.clear()` destroys every owned item and
empties the map, then `cleared(*this)` fires.  Note that `_ids` is left
untouched by the source. -/
def Collection.clear {Id Item : Type} (c : Collection Id Item) :
    Collection Id Item × List (CAction Id Item × Collection Id Item) :=
  let c1 : Collection Id Item := ⟨[], c.ids⟩
  (c1, c.items.map (fun kv => (CAction.destroyItem kv.1, c1))
        ++ [(CAction.fireCleared, c1)])

/-- The scratch vector Collection::sort builds:
`vector<SmartItemPointer> sortVector(_items.size());` value-initialises
`_items.size()` null pointers, and the following loop `push_back`s the
stored pointers after them. -/
def Collection.sortVector {Id Item : Type} (c : Collection Id Item) :
    List (Option Item) :=
  List.replicate c.items.length none ++ c.items.map (fun kv => some kv.2)

/-- The projection loop of Collection::sort:
`for (item : sortVector) sortedIds.push_back(item->id());` — dereferences
each pointer in order; a null pointer is a null dereference. -/
def derefIds {Id Item : Type} (idOf : Item → Id) :
    List (Option Item) → Except NullDerefError (List Id)
  | [] => Except.ok []
  | none :: _ => Except.error NullDerefError.nullDeref
  | some it :: rest => (derefIds idOf rest).map (fun l => idOf it :: l)

/-- Collection::sort: when non-empty, builds `sortVector` (see
`Collection.sortVector`), hands it to `std::sort` — modelled abstractly by
the parameter `sorted`, constrained in the theorems to be a permutation of
the built vector, since a sort only rearranges entries (its comparator
here additionally dereferences the null entries, which is already fatal,
so any permutation over-approximates its behaviour) — then allocates
`vector<Id> sortedIds(sortVector.size())` (that many value-initialised
ids, `dflt` each) and `push_back`s `item->id()` for every pointer of the
sorted vector after them.  When empty, returns the empty SortView. -/
def Collection.sort {Id Item : Type} (idOf : Item → Id) (dflt : Id)
    (c : Collection Id Item) (sorted : List (Option Item)) :
    Except NullDerefError (SortView Id) :=
  if 0 < c.items.length then
    (derefIds idOf sorted).map (fun pushed =>
      ⟨List.replicate sorted.length dflt ++ pushed⟩)
  else Except.ok ⟨[]⟩

/-- Scans a trace in execution order and reports whether, among the
actions concerning `id`, an `itemRemoved` fire comes before any
destruction of the owned item (vacuously true when neither occurs).  This
is the ordering the specification promises for `removeById`. -/
def removedFireBeforeDestroy {Id Item : Type} [DecidableEq Id] (id : Id) :
    List (CAction Id Item) → Bool
  | [] => true
  | CAction.destroyItem i :: rest =>
      if i = id then false else removedFireBeforeDestroy id rest
  | CAction.fireItemRemoved i :: rest =>
      if i = id then true else removedFireBeforeDestroy id rest
  | _ :: rest => removedFireBeforeDestroy id rest

/-! ## Helper lemmas -/

theorem mapCount_append {Id Item : Type} [DecidableEq Id] (id : Id)
    (l1 l2 : List (Id × Item)) :
    mapCount id (l1 ++ l2) = mapCount id l1 + mapCount id l2 := by
  simp [mapCount, List.filter_append]

theorem mapCount_mapErase {Id Item : Type} [DecidableEq Id] (id : Id)
    (l : List (Id × Item)) : mapCount id (mapErase id l) = 0 := by
  induction l with
  | nil => rfl
  | cons kv rest ih =>
    by_cases hk : kv.1 = id
    · simp [mapErase, mapCount, hk] at ih ⊢
    · simp [mapErase, mapCount, hk] at ih ⊢

theorem mapFind_append_single {Id Item : Type} [DecidableEq Id] (id : Id)
    (item : Item) (l : List (Id × Item)) (h : mapCount id l = 0) :
    mapFind id (l ++ [(id, item)]) = some item := by
  induction l with
  | nil => simp [mapFind]
  | cons kv rest ih =>
    by_cases hk : kv.1 = id
    · exfalso
      simp [mapCount, hk] at h
    · have hrest : mapCount id rest = 0 := by
        simpa [mapCount, hk] using h
      simpa [mapFind, hk] using ih hrest

theorem atIntOverload_eq_none {Id : Type} (s : SortView Id) (i : Int) :
    ∀ fuel, s.atIntOverload i fuel = none
  | 0 => rfl
  | fuel + 1 => atIntOverload_eq_none s i fuel

theorem derefIds_error_of_none_mem {Id Item : Type} (idOf : Item → Id)
    (l : List (Option Item)) (h : none ∈ l) :
    derefIds idOf l = Except.error NullDerefError.nullDeref := by
  induction l with
  | nil => cases h
  | cons o rest ih =>
    cases o with
    | none => rfl
    | some it =>
      have hr : none ∈ rest := by simpa using h
      simp [derefIds, ih hr, Except.map]

/-- Collection::sort dereferences a null pointer on every non-empty
collection: the scratch vector starts with `size()` null entries, a sort
only rearranges them, and the projection loop dereferences each entry. -/
theorem sort_error_of_perm {Id Item : Type} (idOf : Item → Id) (dflt : Id)
    (c : Collection Id Item) (sorted : List (Option Item))
    (hne : 0 < c.items.length) (hperm : sorted.Perm c.sortVector) :
    Collection.sort idOf dflt c sorted
      = Except.error NullDerefError.nullDeref := by
  have hrep : (none : Option Item) ∈ List.replicate c.items.length none :=
    List.mem_replicate.mpr ⟨Nat.pos_iff_ne_zero.mp hne, rfl⟩
  have hmem : (none : Option Item) ∈ c.sortVector := by
    unfold Collection.sortVector
    exact List.mem_append.mpr (Or.inl hrep)
  have hsorted : (none : Option Item) ∈ sorted := hperm.mem_iff.mpr hmem
  simp [Collection.sort, hne, derefIds_error_of_none_mem idOf sorted hsorted,
    Except.map]

/-! ## Claim theorems -/

/-- C1 (counterexample): the claim says removeById fires
`itemRemoved(self, id)` before the owned item is destroyed.  On the
collection holding item 10 under id 1, the trace of `removeById 1` is
`[destroyItem 1, fireItemRemoved 1]` — the destruction comes first, so the
claimed ordering is false. -/
theorem C1_claim_order_false :
    ¬ (removedFireBeforeDestroy 1
        (((Collection.removeById (⟨[(1, 10)], [1]⟩ : Collection Nat Nat)
            1).2).map Prod.fst) = true) := by
  decide

/-- C1 (amended): for every Collection and every id present in it,
removeById(id) destroys the owned item first (as part of
`_items.erase(id)`) and fires `itemRemoved(self, id)` only afterwards;
after the call the id is removed from both the id-set and the id-to-item
mapping. -/
theorem C1_remove_destroys_then_fires {Id Item : Type} [DecidableEq Id]
    (c : Collection Id Item) (id : Id) (h : c.contains id = true) :
    ((c.removeById id).2.map Prod.fst
        = [CAction.destroyItem id, CAction.fireItemRemoved id]) ∧
    (c.removeById id).1.contains id = false ∧
    id ∉ (c.removeById id).1.ids := by
  have hc : 0 < mapCount id c.items := of_decide_eq_true h
  refine ⟨?_, ?_, ?_⟩
  · simp [Collection.removeById, hc]
  · simp [Collection.removeById, hc, Collection.contains, mapCount_mapErase]
  · simp [Collection.removeById, hc, setErase, List.mem_filter]

/-- C1 (witness): the amended theorem applied to the collection holding
item 10 under id 1. -/
theorem C1_remove_witness :
    ((⟨[(1, 10)], [1]⟩ : Collection Nat Nat).contains 1 = true) ∧
    ((((⟨[(1, 10)], [1]⟩ : Collection Nat Nat).removeById 1).2.map Prod.fst
        = [CAction.destroyItem 1, CAction.fireItemRemoved 1]) ∧
      ((⟨[(1, 10)], [1]⟩ : Collection Nat Nat).removeById 1).1.contains 1
        = false ∧
      1 ∉ ((⟨[(1, 10)], [1]⟩ : Collection Nat Nat).removeById 1).1.ids) :=
  ⟨by decide, C1_remove_destroys_then_fires ⟨[(1, 10)], [1]⟩ 1 (by decide)⟩

/-- C2: clear() on the collection holding item 10 under id 1 empties the
id-to-item mapping and fires exactly one cleared event (no itemRemoved),
but leaves the id-set still holding 1 — the set and the mapping are out of
lock-step after the call, refuting the claim that both end up empty. -/
theorem C2_clear_leaves_ids_stale :
    ((⟨[(1, 10)], [1]⟩ : Collection Nat Nat).clear.1.items = []) ∧
    ((⟨[(1, 10)], [1]⟩ : Collection Nat Nat).clear.1.ids = [1]) ∧
    (¬ ((⟨[(1, 10)], [1]⟩ : Collection Nat Nat).clear.1.ids = [])) ∧
    ((⟨[(1, 10)], [1]⟩ : Collection Nat Nat).clear.2.map Prod.fst
        = [CAction.destroyItem 1, CAction.fireCleared]) := by
  decide

/-- C3: on the collection holding item 10 under id 1, the scratch vector
sort() builds is `[null, item-10]` (the `vector(_items.size())`
constructor already made one null entry), and running the rest of sort()
on it — for the identity permutation standing in for std::sort —
dereferences the null pointer instead of producing any SortView, refuting
the claim that sort returns the current ids in order; sorting an empty
collection does return a SortView of size 0. -/
theorem C3_sort_derefs_null :
    (Collection.sortVector (⟨[(1, 10)], [1]⟩ : Collection Nat Nat)
        = [none, some 10]) ∧
    (Collection.sort (fun n => n) 0 (⟨[(1, 10)], [1]⟩ : Collection Nat Nat)
        (Collection.sortVector ⟨[(1, 10)], [1]⟩)
        = Except.error NullDerefError.nullDeref) ∧
    (Collection.sort (fun n => n) 0 (⟨[], []⟩ : Collection Nat Nat) []
        = Except.ok ⟨[]⟩) ∧
    (SortView.size (⟨[]⟩ : SortView Nat) = 0) :=
  ⟨rfl, rfl, rfl, rfl⟩

/-- C4: src/Base/model.h's operator== makes two empty Properties compare
unequal (`p1.hasValue() && p2.hasValue() && ...` is false when both are
empty), contradicting the claim, the repository's own test
property_equality_both_empty, and the revised operator== of
src/unnamed/part_000, which makes it true; the remaining clauses of the
claim (value-vs-empty never equal, equal values equal, distinct values
unequal) hold under both versions. -/
theorem C4_empty_equality_divergence :
    (propEqModelH (Property.mk (none : Option Nat)) (Property.mk none)
        = false) ∧
    (propEqPart0 (Property.mk (none : Option Nat)) (Property.mk none)
        = true) ∧
    (propEqModelH (Property.mk (some 1)) (Property.mk (none : Option Nat))
        = false) ∧
    (propEqPart0 (Property.mk (some 1)) (Property.mk (none : Option Nat))
        = false) ∧
    (propEqModelH (Property.mk (some 1)) (Property.mk (some 1)) = true) ∧
    (propEqPart0 (Property.mk (some 1)) (Property.mk (some 1)) = true) ∧
    (propEqModelH (Property.mk (some 1)) (Property.mk (some 2)) = false) ∧
    (propNePart0 (Property.mk (some 1)) (Property.mk (some 2)) = true) := by
  decide

/-- C5: adding an item whose extracted id is already present is a silent
no-op: the state is unchanged and no action (in particular no itemAdded
fire) happens, so the size stays the same and the item first stored under
that id remains the one retained. -/
theorem C5_duplicate_add_noop {Id Item : Type} [DecidableEq Id]
    (idFn : Item → Id) (c : Collection Id Item) (item : Item)
    (h : c.contains (idFn item) = true) :
    Collection.add idFn c item = (c, []) ∧
    (Collection.add idFn c item).1.size = c.size ∧
    (Collection.add idFn c item).1.findById (idFn item)
      = c.findById (idFn item) := by
  have heq : Collection.add idFn c item = (c, []) := by
    simp [Collection.add, h]
  exact ⟨heq, by rw [heq], by rw [heq]⟩

/-- C5 (witness): adding a second item (20) extracting to id 1 to the
collection already holding item 10 under id 1 changes nothing and
findById 1 still yields the first item. -/
theorem C5_duplicate_add_witness :
    ((⟨[(1, 10)], [1]⟩ : Collection Nat Nat).contains 1 = true) ∧
    (Collection.add (fun _ => 1) (⟨[(1, 10)], [1]⟩ : Collection Nat Nat) 20
        = (⟨[(1, 10)], [1]⟩, []) ∧
      (Collection.add (fun _ => 1)
          (⟨[(1, 10)], [1]⟩ : Collection Nat Nat) 20).1.size
        = (⟨[(1, 10)], [1]⟩ : Collection Nat Nat).size ∧
      (Collection.add (fun _ => 1)
          (⟨[(1, 10)], [1]⟩ : Collection Nat Nat) 20).1.findById 1
        = (⟨[(1, 10)], [1]⟩ : Collection Nat Nat).findById 1) :=
  ⟨by decide, C5_duplicate_add_noop (fun _ => 1) ⟨[(1, 10)], [1]⟩ 20 (by decide)⟩

/-- C6: destroying an event handler (which runs `unsubscribe(this)` on
every event it connected to) removes exactly its entries: for every
connected event, the destroyed version is what the destructor leaves in
place, firing it invokes precisely the surviving subscribers in their
original order, and none of the invocations belongs to the destroyed
handler. -/
theorem C6_destroyed_handler_not_invoked {H Cb A : Type} [DecidableEq H]
    (events : List (Event H Cb)) (gone : H) (args : A) (e : Event H Cb)
    (he : e ∈ events) :
    (e.unsubscribe gone ∈ eventHandlerDestroy gone events) ∧
    (((e.unsubscribe gone).fire args).map Prod.fst
        = e.subscribers.filter (fun s => !decide (s.eventHandler = gone))) ∧
    (((e.unsubscribe gone).fire args).all
        (fun p => !decide (p.1.eventHandler = gone)) = true) := by
  refine ⟨?_, ?_, ?_⟩
  · exact List.mem_map.mpr ⟨e, he, rfl⟩
  · simp [Event.fire, Event.unsubscribe, Function.comp_def]
  · rw [List.all_eq_true]
    intro p hp
    simp [Event.fire, Event.unsubscribe, List.mem_map, List.mem_filter] at hp
    obtain ⟨s, ⟨_, hpred⟩, rfl⟩ := hp
    simpa using hpred

/-- C6 (witness): the two-observer scenario: handlers 1 and 2 subscribed
to one event; the first fire reaches both (in order), then handler 2 is
destroyed, and the next fire reaches only handler 1. -/
theorem C6_two_observer_witness :
    ((Event.fire (⟨[⟨1, 0⟩, ⟨2, 0⟩]⟩ : Event Nat Nat) 7).map
        (fun p => p.1.eventHandler) = [1, 2]) ∧
    ((Event.fire (Event.unsubscribe (⟨[⟨1, 0⟩, ⟨2, 0⟩]⟩ : Event Nat Nat) 2)
        8).map (fun p => p.1.eventHandler) = [1]) ∧
    ((⟨[⟨1, 0⟩, ⟨2, 0⟩]⟩ : Event Nat Nat) ∈
        [(⟨[⟨1, 0⟩, ⟨2, 0⟩]⟩ : Event Nat Nat)]) ∧
    ((Event.unsubscribe (⟨[⟨1, 0⟩, ⟨2, 0⟩]⟩ : Event Nat Nat) 2 ∈
        eventHandlerDestroy 2 [(⟨[⟨1, 0⟩, ⟨2, 0⟩]⟩ : Event Nat Nat)]) ∧
      ((Event.fire (Event.unsubscribe (⟨[⟨1, 0⟩, ⟨2, 0⟩]⟩ : Event Nat Nat) 2)
          8).map Prod.fst
        = (⟨[⟨1, 0⟩, ⟨2, 0⟩]⟩ : Event Nat Nat).subscribers.filter
            (fun s => !decide (s.eventHandler = 2))) ∧
      ((Event.fire (Event.unsubscribe (⟨[⟨1, 0⟩, ⟨2, 0⟩]⟩ : Event Nat Nat) 2)
          8).all (fun p => !decide (p.1.eventHandler = 2)) = true)) :=
  ⟨by decide, by decide, by decide,
    C6_destroyed_handler_not_invoked [⟨[⟨1, 0⟩, ⟨2, 0⟩]⟩] 2 8
      ⟨[⟨1, 0⟩, ⟨2, 0⟩]⟩ (by decide)⟩

/-- C7: fire(args...) invokes exactly the currently-registered
subscribers, once each, in subscription order, passing the same argument
to each; subscribing the same (handler, method) pair a second time pushes
a second independent entry at the back, and both entries fire. -/
theorem C7_fire_each_once_in_order {H Cb A : Type} (e : Event H Cb)
    (args : A) (hh : H) (cb : Cb) :
    ((e.fire args).map Prod.fst = e.subscribers) ∧
    ((e.fire args).map Prod.snd
        = List.replicate e.subscribers.length args) ∧
    (((e.subscribe hh cb).subscribe hh cb).fire args
        = (e.subscribers
            ++ ([⟨hh, cb⟩, ⟨hh, cb⟩] : List (Subscriber H Cb))).map
              (fun s => (s, args))) := by
  refine ⟨?_, ?_, ?_⟩
  · simp [Event.fire, Function.comp_def]
  · simp [Event.fire, Function.comp_def, List.map_const']
  · simp [Event.fire, Event.subscribe]

/-- C7 (witness): the theorem applied to an event with one registered
subscriber, handler 2 re-subscribing method 5 twice. -/
theorem C7_fire_witness :
    (((⟨[⟨1, 5⟩]⟩ : Event Nat Nat).fire 9).map Prod.fst
        = (⟨[⟨1, 5⟩]⟩ : Event Nat Nat).subscribers) ∧
    (((⟨[⟨1, 5⟩]⟩ : Event Nat Nat).fire 9).map Prod.snd
        = List.replicate (⟨[⟨1, 5⟩]⟩ : Event Nat Nat).subscribers.length 9) ∧
    ((((⟨[⟨1, 5⟩]⟩ : Event Nat Nat).subscribe 2 5).subscribe 2 5).fire 9
        = ((⟨[⟨1, 5⟩]⟩ : Event Nat Nat).subscribers
            ++ ([⟨2, 5⟩, ⟨2, 5⟩] : List (Subscriber Nat Nat))).map
              (fun s => (s, 9))) :=
  C7_fire_each_once_in_order ⟨[⟨1, 5⟩]⟩ 9 2 5

/-- C8: value() on an empty Property fails with EmptyValueError (it never
returns a default), and value() on a Property holding v returns v. -/
theorem C8_value_empty_errors {T : Type} (p q : Property T) (v : T)
    (hp : p.isEmpty = true) (hq : q.val = some v) :
    p.value = Except.error EmptyValueError.emptyValue ∧
    q.value = Except.ok v := by
  constructor
  · cases hv : p.val with
    | none => simp [Property.value, hv]
    | some w => simp [Property.isEmpty, hv] at hp
  · simp [Property.value, hq]

/-- C8 (witness): the theorem applied to the empty Property and to the
Property holding 3. -/
theorem C8_value_witness :
    ((⟨none⟩ : Property Nat).isEmpty = true) ∧
    ((⟨some 3⟩ : Property Nat).val = some 3) ∧
    ((⟨none⟩ : Property Nat).value
        = Except.error EmptyValueError.emptyValue ∧
      (⟨some 3⟩ : Property Nat).value = Except.ok 3) :=
  ⟨rfl, rfl, C8_value_empty_errors ⟨none⟩ ⟨some 3⟩ 3 rfl rfl⟩

/-- C9: the int overload of SortView::at never produces any result — its
body `return at(index);` resolves back to the int overload itself, so it
recurses forever (modelled by fuel: no amount of fuel yields a result),
refuting the claim that it returns the id or fails with OutOfRangeError;
the size_type overload does behave as claimed on the same view: index 0 of
the one-element view yields its id and index 1 fails with
OutOfRangeError. -/
theorem C9_at_int_overload_never_returns :
    (∀ fuel, SortView.atIntOverload (⟨[5]⟩ : SortView Nat) 0 fuel = none) ∧
    (SortView.atIndex (⟨[5]⟩ : SortView Nat) 0 = Except.ok 5) ∧
    (SortView.atIndex (⟨[5]⟩ : SortView Nat) 1
        = Except.error OutOfRangeError.outOfRange) :=
  ⟨fun fuel => atIntOverload_eq_none ⟨[5]⟩ 0 fuel, rfl, rfl⟩

/-- C10: when add inserts a new item, the single fired action is
`itemAdded(self, id, item)` and its state snapshot is the post-insertion
state: during the notification contains(id) is already true, the size
already counts the new item, and findById(id) returns exactly the item
passed as the event argument. -/
theorem C10_insertion_visible_at_fire {Id Item : Type} [DecidableEq Id]
    (idFn : Item → Id) (c : Collection Id Item) (item : Item)
    (h : c.contains (idFn item) = false) :
    ((Collection.add idFn c item).2
        = [(CAction.fireItemAdded (idFn item) item,
            (Collection.add idFn c item).1)]) ∧
    (Collection.add idFn c item).1.contains (idFn item) = true ∧
    (Collection.add idFn c item).1.size = c.size + 1 ∧
    (Collection.add idFn c item).1.findById (idFn item)
      = Except.ok item := by
  have hnot : ¬ 0 < mapCount (idFn item) c.items := of_decide_eq_false h
  have hcount : mapCount (idFn item) c.items = 0 := by omega
  have hone : mapCount (idFn item) (mapInsert (idFn item) item c.items)
      = mapCount (idFn item) c.items + 1 := by
    simp [mapInsert, mapCount_append, mapCount]
  have hadd : Collection.add idFn c item
      = (⟨mapInsert (idFn item) item c.items, setInsert (idFn item) c.ids⟩,
          [(CAction.fireItemAdded (idFn item) item,
            ⟨mapInsert (idFn item) item c.items,
              setInsert (idFn item) c.ids⟩)]) := by
    simp [Collection.add, h]
  refine ⟨?_, ?_, ?_, ?_⟩
  · rw [hadd]
  · rw [hadd]
    simp only [Collection.contains, hone, hcount, decide_eq_true_eq]
    omega
  · rw [hadd]
    simp [Collection.size, mapInsert]
  · rw [hadd]
    simp only [Collection.findById,
      show mapInsert (idFn item) item c.items
          = c.items ++ [(idFn item, item)] from rfl,
      mapFind_append_single (idFn item) item c.items hcount]

/-- C10 (witness): adding item 7 (its own id) to the empty collection. -/
theorem C10_insertion_witness :
    ((⟨[], []⟩ : Collection Nat Nat).contains 7 = false) ∧
    (((Collection.add (fun n => n) (⟨[], []⟩ : Collection Nat Nat) 7).2
        = [(CAction.fireItemAdded 7 7,
            (Collection.add (fun n => n)
              (⟨[], []⟩ : Collection Nat Nat) 7).1)]) ∧
      (Collection.add (fun n => n)
          (⟨[], []⟩ : Collection Nat Nat) 7).1.contains 7 = true ∧
      (Collection.add (fun n => n)
          (⟨[], []⟩ : Collection Nat Nat) 7).1.size
        = (⟨[], []⟩ : Collection Nat Nat).size + 1 ∧
      (Collection.add (fun n => n)
          (⟨[], []⟩ : Collection Nat Nat) 7).1.findById 7
        = Except.ok 7) :=
  ⟨by decide, C10_insertion_visible_at_fire (fun n => n) ⟨[], []⟩ 7 (by decide)⟩

end RT
